import Mathlib

/-!
Verification of the temporal/interval expression algebra of the ibis
repository (spec.md sections 3, 4.1-4.4) against a shallow embedding.

The repository snapshot under `src/` contains the test suite
`src/ibis/expr/tests/test_temporal.py` but not the implementation modules
(`ibis/expr/api.py`, `ibis/expr/datatypes.py`, `ibis/expr/operations.py`,
`ibis/expr/types.py`).  Every definition below that embeds a missing
implementation carries a doc comment starting with `Modelled from the
spec:`; where the test suite in `src/` pins down behaviour, the model
follows the tests.
-/

namespace Ibis

/-- Modelled from the spec: section 3 "Unit" enum over
{Y, M, w, d, h, m, s, ms, us, ns}; the type lives in the missing
`ibis/expr/datatypes.py`.  Constructor names are the short unit codes. -/
inductive TimeUnit where
  | Y | M | w | d | h | m | s | ms | us | ns
deriving DecidableEq, Repr

/-- Modelled from the spec: section 3, the flag marking calendar units
(Y, M) whose scale to days is not fixed. -/
def TimeUnit.isCalendar : TimeUnit → Bool
  | .Y => true
  | .M => true
  | _ => false

/-- Modelled from the spec: section 4.1, the canonical ordering of the
fixed-duration chain (coarsest to finest): w, d, h, m, s, ms, us, ns.
Calendar units Y and M never appear in the chain, hence `none`. -/
def TimeUnit.fixedIndex : TimeUnit → Option Nat
  | .Y => none
  | .M => none
  | .w => some 0
  | .d => some 1
  | .h => some 2
  | .m => some 3
  | .s => some 4
  | .ms => some 5
  | .us => some 6
  | .ns => some 7

/-- Modelled from the spec: section 4.1, the fixed ratio between adjacent
units of the chain w, d, h, m, s, ms, us, ns: 7, 24, 60, 60, 1000, 1000,
1000. `adjFactor i` is the ratio between chain positions `i` and `i+1`. -/
def adjFactor (i : Nat) : Int :=
  if i = 0 then 7
  else if i = 1 then 24
  else if i = 2 then 60
  else if i = 3 then 60
  else 1000

/-- Cumulative product of `k` adjacent factors starting at chain
position `i`. -/
def cumScaleAux : Nat → Nat → Int
  | _, 0 => 1
  | i, k + 1 => adjFactor i * cumScaleAux (i + 1) k

/-- Modelled from the spec: section 4.1 `scale_factor` restricted to the
fixed-duration chain: the cumulative scale factor between chain
positions `i` (coarser) and `j` (finer), i.e. the product of the
adjacent ratios between them. -/
def cumScale (i j : Nat) : Int := cumScaleAux i (j - i)

/-- Modelled from the spec: section 3, Interval `storage_type` is an
8/16/32/64-bit signed integer type (`ibis/expr/datatypes.py`). -/
inductive IntType where
  | int8 | int16 | int32 | int64
deriving DecidableEq, Repr

def IntType.bits : IntType → Nat
  | .int8 => 8
  | .int16 => 16
  | .int32 => 32
  | .int64 => 64

/-- Modelled from the spec: the literal type-inference rule visible in
`test_interval_repr` (a magnitude of 3 is stored as int8): the smallest
signed integer type containing the magnitude. -/
def smallestIntType (n : Int) : IntType :=
  if -128 ≤ n ∧ n < 128 then .int8
  else if -32768 ≤ n ∧ n < 32768 then .int16
  else if -2147483648 ≤ n ∧ n < 2147483648 then .int32
  else .int64

/-- Storage promotion for binary interval arithmetic: the wider of the
two operand storage types. -/
def promoteIntType (a b : IntType) : IntType :=
  if a.bits ≤ b.bits then b else a

/-- Modelled from the spec: section 3 data model.  `interval` carries its
unit and storage (`value_type`, the field name exercised by
`test_integer_to_interval`); `date`, `time`, `timestamp` are
unparametrized marker types. -/
inductive DataType where
  | interval (unit : TimeUnit) (value_type : IntType)
  | date
  | time
  | timestamp
  | boolean
deriving DecidableEq, Repr

/-- Modelled from the spec: section 3 "Operation node", the closed set of
tagged operation kinds produced by the resolver, plus the `literal` and
`column` leaf kinds of the surrounding expression framework
(`ibis/expr/operations.py`). -/
inductive OpKind where
  | literal
  | column
  | intervalAdd
  | intervalSubtract
  | intervalMultiply
  | dateAdd
  | dateSubtract
  | timeAdd
  | timeSubtract
  | timestampAdd
  | timestampSubtract
deriving DecidableEq, Repr

/-- Modelled from the spec: sections 3 and 6, a typed expression node of
the framework: its resolved type (`.type()`), its operation kind
(`.op()`), whether it is a scalar (vs a column), and, for interval
literals, the concrete signed magnitude. -/
structure Expr where
  dtype : DataType
  node : OpKind
  scalar : Bool
  value : Option Int
deriving DecidableEq, Repr

/-- An interval literal expression: unit plus concrete magnitude, with
storage inferred as in `test_interval_repr`. -/
def intervalLit (n : Int) (u : TimeUnit) : Expr :=
  { dtype := .interval u (smallestIntType n)
    node := .literal
    scalar := true
    value := some n }

/-- An interval column of the given unit and storage (as produced by
`to_interval` on an integer column per spec section 4.4). -/
def intervalColumn (u : TimeUnit) (t : IntType) : Expr :=
  { dtype := .interval u t, node := .column, scalar := false, value := none }

/-- A timestamp scalar such as `api.timestamp(datetime.datetime.now())`. -/
def timestampLit : Expr :=
  { dtype := .timestamp, node := .literal, scalar := true, value := none }

/-- A date scalar such as `api.date('2015-01-02')`. -/
def dateLit : Expr :=
  { dtype := .date, node := .literal, scalar := true, value := none }

/-- A time scalar such as `api.time('18:00')`. -/
def timeLit : Expr :=
  { dtype := .time, node := .literal, scalar := true, value := none }

/-- A timestamp column, like `table.i` in the tests. -/
def timestampColumn : Expr :=
  { dtype := .timestamp, node := .column, scalar := false, value := none }

/-- A date column, like `table.j` in the tests. -/
def dateColumn : Expr :=
  { dtype := .date, node := .column, scalar := false, value := none }

/-- A time column, like `table.k` in the tests. -/
def timeColumn : Expr :=
  { dtype := .time, node := .column, scalar := false, value := none }

/-- Whether an expression is an interval scalar (`ir.IntervalScalar`). -/
def Expr.isIntervalScalar (e : Expr) : Bool :=
  (match e.dtype with
   | .interval _ _ => true
   | _ => false) && e.scalar

/-- Modelled from the spec: section 7, the error kinds raised by the
missing construction/conversion/resolution code: `TypeError`,
`ValueError` and `IncompatibleUnits`. -/
inductive Err where
  | typeError
  | valueError
  | incompatibleUnits
deriving DecidableEq, Repr

/-- Modelled from the spec: section 4.2 `to_unit`, the unit conversion of
`IntervalValue` (missing `ibis/expr/types.py`).
Same-unit conversion is the identity; conversion between a calendar unit
(Y, M) and any other unit fails with `IncompatibleUnits` (spec sections
3 and 4.1: calendar units never appear in the fixed chain).  Between
fixed-duration units the conversion is always permitted structurally:
down-conversion multiplies a literal magnitude by the cumulative scale
factor, up-conversion floor-divides it.  The spec text also demands a
static exact-divisibility check for literal up-conversion, but
`test_cannot_upconvert` in src/ibis/expr/tests/test_temporal.py asserts
that up-converting literal intervals whose magnitude is not a whole
multiple of the factor (e.g. `api.second().to_unit('d')`) succeeds and
has the target unit, so no static check is modelled and exactness is
deferred to evaluation.  Column operands keep their storage and node;
literal results re-infer storage from the new magnitude. -/
def to_unit (e : Expr) (target : TimeUnit) : Except Err Expr :=
  match e.dtype with
  | .interval u vt =>
    if u = target then .ok e
    else
      match u.fixedIndex, target.fixedIndex with
      | some i, some j =>
        let g : Int → Int :=
          if i < j then fun n => n * cumScale i j
          else fun n => Int.fdiv n (cumScale j i)
        match e.value with
        | some n =>
          .ok { dtype := .interval target (smallestIntType (g n))
                node := .literal
                scalar := e.scalar
                value := some (g n) }
        | none =>
          .ok { dtype := .interval target vt
                node := e.node
                scalar := e.scalar
                value := none }
      | _, _ => .error .incompatibleUnits
  | _ => .error .typeError

/-- Modelled from the spec: section 4.2, multiplication of an interval by
a scalar integer `k`: the unit is unchanged and the magnitude is
multiplied by `k` under standard signed multiplication
(`test_multiply`).  On a non-interval operand it is a type error. -/
def multiply (e : Expr) (k : Int) : Except Err Expr :=
  match e.dtype with
  | .interval u _ =>
    match e.value with
    | some n =>
      .ok { dtype := .interval u (smallestIntType (n * k))
            node := .intervalMultiply
            scalar := e.scalar
            value := some (n * k) }
    | none =>
      .ok { dtype := e.dtype
            node := .intervalMultiply
            scalar := e.scalar
            value := none }
  | _ => .error .typeError

/-- Modelled from the spec: section 4.3, Date arithmetic with an Interval
is legal only if the interval's unit is one of {year, month, week, day}. -/
def dateCompatible : TimeUnit → Bool
  | .Y => true
  | .M => true
  | .w => true
  | .d => true
  | _ => false

/-- Modelled from the spec: section 4.2 addition of two intervals, the
finer-unit-wins promotion (`promote(unit_a, unit_b)` of spec section 9):
equal units stay; two distinct fixed-duration units promote to the finer
one (the larger chain index); any other pair (calendar vs fixed, or two
distinct calendar units) has no promotion. -/
def promoteUnit (u v : TimeUnit) : Option TimeUnit :=
  if u = v then some u
  else
    match u.fixedIndex, v.fixedIndex with
    | some i, some j => some (if i ≤ j then v else u)
    | _, _ => none

/-- Magnitude of a literal interval re-expressed in the promoted (finer)
unit: multiplied by the cumulative scale from its own chain index to the
promoted index. -/
def scaledValue (val : Option Int) (i target : Nat) : Option Int :=
  val.map fun n => n * cumScale i target

/-- Modelled from the spec: sections 4.2 and 4.3, addition/subtraction of
two intervals: both operands are implicitly down-converted to the finer
unit and combined there; the storage is the wider of the two.  `sub`
selects subtraction. -/
def combineIntervals (l r : Expr) (u v : TimeUnit) (su sv : IntType)
    (sub : Bool) : Except Err Expr :=
  match promoteUnit u v with
  | none => .error .typeError
  | some t =>
    let iu := (u.fixedIndex).getD 0
    let iv := (v.fixedIndex).getD 0
    let iw := (t.fixedIndex).getD 0
    let lv := scaledValue l.value iu iw
    let rv := scaledValue r.value iv iw
    .ok { dtype := .interval t (promoteIntType su sv)
          node := if sub then .intervalSubtract else .intervalAdd
          scalar := l.scalar && r.scalar
          value :=
            match lv, rv with
            | some a, some b => some (if sub then a - b else a + b)
            | _, _ => none }

/-- Modelled from the spec: section 4.3, the binary operators handled by
the arithmetic resolver. -/
inductive BinOp where
  | add
  | sub
deriving DecidableEq, Repr

/-- Modelled from the spec: section 4.3, the arithmetic resolver: given
an operator and two typed operands it applies the legality table,
producing the resulting typed operation node or `TypeError`.  Additions
of an instant and an interval are commutative and reuse the same `*Add`
node kind; sub-day intervals are rejected for Date operands; instant
minus instant yields the canonical Interval(s, int32) (Timestamp, Time)
or Interval(d, int32) (Date). -/
def resolve (op : BinOp) (l r : Expr) : Except Err Expr :=
  let sc := l.scalar && r.scalar
  match l.dtype, r.dtype, op with
  | .timestamp, .interval _ _, .add =>
    .ok { dtype := .timestamp, node := .timestampAdd, scalar := sc, value := none }
  | .timestamp, .interval _ _, .sub =>
    .ok { dtype := .timestamp, node := .timestampSubtract, scalar := sc, value := none }
  | .interval _ _, .timestamp, .add =>
    .ok { dtype := .timestamp, node := .timestampAdd, scalar := sc, value := none }
  | .timestamp, .timestamp, .sub =>
    .ok { dtype := .interval .s .int32, node := .timestampSubtract, scalar := sc, value := none }
  | .date, .interval u _, .add =>
    if dateCompatible u then
      .ok { dtype := .date, node := .dateAdd, scalar := sc, value := none }
    else .error .typeError
  | .date, .interval u _, .sub =>
    if dateCompatible u then
      .ok { dtype := .date, node := .dateSubtract, scalar := sc, value := none }
    else .error .typeError
  | .interval u _, .date, .add =>
    if dateCompatible u then
      .ok { dtype := .date, node := .dateAdd, scalar := sc, value := none }
    else .error .typeError
  | .date, .date, .sub =>
    .ok { dtype := .interval .d .int32, node := .dateSubtract, scalar := sc, value := none }
  | .time, .interval _ _, .add =>
    .ok { dtype := .time, node := .timeAdd, scalar := sc, value := none }
  | .time, .interval _ _, .sub =>
    .ok { dtype := .time, node := .timeSubtract, scalar := sc, value := none }
  | .interval _ _, .time, .add =>
    .ok { dtype := .time, node := .timeAdd, scalar := sc, value := none }
  | .time, .time, .sub =>
    .ok { dtype := .interval .s .int32, node := .timeSubtract, scalar := sc, value := none }
  | .interval u su, .interval v sv, .add => combineIntervals l r u v su sv false
  | .interval u su, .interval v sv, .sub => combineIntervals l r u v su sv true
  | _, _, _ => .error .typeError

/-- The positional `value` argument of the `interval` construction API:
absent, a bare integer, or a `datetime.timedelta` duration (given in its
normalized days/seconds/microseconds form). -/
inductive IntervalArg where
  | noValue
  | int (n : Int)
  | timedelta (days seconds microseconds : Int)
deriving DecidableEq, Repr

/-- Modelled from the spec: section 4.4, the construction API
`interval(value?, unit?, **named_unit_kwargs)` (missing
`ibis/expr/api.py`; `timedelta` is an alias).  `kwargs` is the list of
named unit magnitudes that were passed (`years=...` maps to unit Y and
so on).  More than one named magnitude, or no named magnitude together
with no positional value, raises `ValueError`.  Exactly one named
magnitude builds the literal in that unit, ignoring the positional
arguments, as the convenience constructors do.  A bare integer uses the
`unit` parameter (whose caller-side default is seconds); a timedelta
value is converted to its total length, in microseconds when it has a
sub-second component and in seconds otherwise — the unit is inferred by
the implementation rather than supplied. -/
def interval (value : IntervalArg) (unit : TimeUnit)
    (kwargs : List (TimeUnit × Int)) : Except Err Expr :=
  match kwargs with
  | [] =>
    match value with
    | .noValue => .error .valueError
    | .int n => .ok (intervalLit n unit)
    | .timedelta dae se use =>
      if use = 0 then .ok (intervalLit (dae * 86400 + se) .s)
      else .ok (intervalLit ((dae * 86400 + se) * 1000000 + use) .us)
  | [(u, n)] => .ok (intervalLit n u)
  | _ => .error .valueError

/-- Modelled from the spec: section 4.4, convenience constructor
`week(n) = interval(n, unit='w')`. -/
def week (n : Int) : Expr := intervalLit n .w

/-- Modelled from the spec: section 4.4, convenience constructor
`day(n) = interval(n, unit='d')`. -/
def day (n : Int) : Expr := intervalLit n .d

/-- Modelled from the spec: section 4.4, convenience constructor
`hour(n) = interval(n, unit='h')`. -/
def hour (n : Int) : Expr := intervalLit n .h

/-- Modelled from the spec: section 4.4, convenience constructor
`minute(n) = interval(n, unit='m')`. -/
def minute (n : Int) : Expr := intervalLit n .m

/-- Modelled from the spec: section 4.4, convenience constructor
`second(n) = interval(n, unit='s')`. -/
def second (n : Int) : Expr := intervalLit n .s

/-- The unit of an interval data type, if any. -/
def DataType.unitOf : DataType → Option TimeUnit
  | .interval u _ => some u
  | _ => none

/-- The `*Add` operation kind belonging to each instant domain (spec
section 3 "Operation node"). -/
def addKind : DataType → OpKind
  | .timestamp => .timestampAdd
  | .date => .dateAdd
  | _ => .timeAdd

instance {ε α : Type} [DecidableEq ε] [DecidableEq α] :
    DecidableEq (Except ε α) := fun a b =>
  match a, b with
  | .error x, .error y =>
    if h : x = y then .isTrue (by rw [h]) else
      .isFalse (by intro hc; cases hc; exact h rfl)
  | .error _, .ok _ => .isFalse (by intro hc; cases hc)
  | .ok _, .error _ => .isFalse (by intro hc; cases hc)
  | .ok x, .ok y =>
    if h : x = y then .isTrue (by rw [h]) else
      .isFalse (by intro hc; cases hc; exact h rfl)

theorem adjFactor_pos (i : Nat) : 0 < adjFactor i := by
  unfold adjFactor
  split_ifs <;> norm_num

theorem cumScaleAux_pos : ∀ (k i : Nat), 0 < cumScaleAux i k := by
  intro k
  induction k with
  | zero => intro i; simp [cumScaleAux]
  | succ k ih =>
    intro i
    simpa [cumScaleAux] using mul_pos (adjFactor_pos i) (ih (i + 1))

theorem cumScale_pos (i j : Nat) : 0 < cumScale i j :=
  cumScaleAux_pos (j - i) i

theorem cumScale_ne_zero (i j : Nat) : cumScale i j ≠ 0 :=
  ne_of_gt (cumScale_pos i j)

theorem fixedIndex_ne {u v : TimeUnit} {i j : Nat}
    (hu : u.fixedIndex = some i) (hv : v.fixedIndex = some j)
    (hij : i ≠ j) : u ≠ v := by
  intro h
  rw [h, hv] at hu
  exact hij (Option.some.injEq _ _ ▸ hu).symm

/-- `to_unit` on a literal interval, target the same unit: identity. -/
theorem to_unit_lit_same (n : Int) (u : TimeUnit) :
    to_unit (intervalLit n u) u = .ok (intervalLit n u) := by
  simp [to_unit, intervalLit]

/-- `to_unit` on a literal interval, fixed-chain target strictly finer:
the magnitude is multiplied by the cumulative scale factor. -/
theorem to_unit_lit_down (n : Int) {u v : TimeUnit} {i j : Nat}
    (hu : u.fixedIndex = some i) (hv : v.fixedIndex = some j)
    (hij : i < j) :
    to_unit (intervalLit n u) v = .ok (intervalLit (n * cumScale i j) v) := by
  have huv : u ≠ v := fixedIndex_ne hu hv (Nat.ne_of_lt hij)
  simp [to_unit, intervalLit, huv, hu, hv, hij]

/-- `to_unit` on a literal interval, fixed-chain target strictly coarser:
the magnitude is floor-divided by the cumulative scale factor. -/
theorem to_unit_lit_up (n : Int) {u v : TimeUnit} {i j : Nat}
    (hu : u.fixedIndex = some i) (hv : v.fixedIndex = some j)
    (hij : j < i) :
    to_unit (intervalLit n u) v =
      .ok (intervalLit (Int.fdiv n (cumScale j i)) v) := by
  have huv : u ≠ v := fixedIndex_ne hu hv (Nat.ne_of_gt hij)
  simp [to_unit, intervalLit, huv, hu, hv, Nat.not_lt_of_gt hij]

/-- C1: For every pair of same-domain instant expressions, subtraction
yields an Interval of a fixed canonical type independent of the
operands: Timestamp − Timestamp and Time − Time have type
Interval(unit='s', storage=int32), and Date − Date has type
Interval(unit='d', storage=int32), with the result node being the
corresponding `*Subtract` operation kind. -/
theorem instant_subtraction_canonical (t1 t2 d1 d2 x1 x2 : Expr)
    (ht1 : t1.dtype = .timestamp) (ht2 : t2.dtype = .timestamp)
    (hd1 : d1.dtype = .date) (hd2 : d2.dtype = .date)
    (hx1 : x1.dtype = .time) (hx2 : x2.dtype = .time) :
    resolve .sub t1 t2 =
      .ok { dtype := .interval .s .int32, node := .timestampSubtract
            scalar := t1.scalar && t2.scalar, value := none } ∧
    resolve .sub d1 d2 =
      .ok { dtype := .interval .d .int32, node := .dateSubtract
            scalar := d1.scalar && d2.scalar, value := none } ∧
    resolve .sub x1 x2 =
      .ok { dtype := .interval .s .int32, node := .timeSubtract
            scalar := x1.scalar && x2.scalar, value := none } := by
  refine ⟨?_, ?_, ?_⟩ <;> simp [resolve, ht1, ht2, hd1, hd2, hx1, hx2]

/-- C1 witness: the canonical subtraction types at concrete instant
literals. -/
theorem instant_subtraction_canonical_witness :
    resolve .sub timestampLit timestampLit =
      .ok { dtype := .interval .s .int32, node := .timestampSubtract
            scalar := timestampLit.scalar && timestampLit.scalar
            value := none } ∧
    resolve .sub dateLit dateLit =
      .ok { dtype := .interval .d .int32, node := .dateSubtract
            scalar := dateLit.scalar && dateLit.scalar, value := none } ∧
    resolve .sub timeLit timeLit =
      .ok { dtype := .interval .s .int32, node := .timeSubtract
            scalar := timeLit.scalar && timeLit.scalar, value := none } :=
  instant_subtraction_canonical timestampLit timestampLit dateLit dateLit
    timeLit timeLit rfl rfl rfl rfl rfl rfl

/-- C2: For every Date expression `e` and Interval expression `i`,
`e + i` and `e - i` succeed yielding a Date-typed expression if and only
if `i`'s unit is one of {year, month, week, day}; for units finer than
day both additions raise `TypeError`. -/
theorem date_interval_arithmetic_legality (e i : Expr) (u : TimeUnit)
    (t : IntType) (he : e.dtype = .date) (hi : i.dtype = .interval u t) :
    ((u = .Y ∨ u = .M ∨ u = .w ∨ u = .d) →
      resolve .add e i =
        .ok { dtype := .date, node := .dateAdd
              scalar := e.scalar && i.scalar, value := none } ∧
      resolve .sub e i =
        .ok { dtype := .date, node := .dateSubtract
              scalar := e.scalar && i.scalar, value := none }) ∧
    (¬(u = .Y ∨ u = .M ∨ u = .w ∨ u = .d) →
      resolve .add e i = .error .typeError ∧
      resolve .sub e i = .error .typeError) := by
  constructor
  · intro hu
    have hc : dateCompatible u = true := by
      rcases hu with h | h | h | h <;> subst h <;> rfl
    exact ⟨by simp [resolve, he, hi, hc], by simp [resolve, he, hi, hc]⟩
  · intro hu
    have hc : dateCompatible u = false := by
      cases u <;> simp_all [dateCompatible]
    exact ⟨by simp [resolve, he, hi, hc], by simp [resolve, he, hi, hc]⟩

/-- C2 witness: `date - interval(weeks=3)` is a Date subtraction, while
`date ± interval(seconds=300)` raises `TypeError` (mirrors
`test_invalid_date_arithmetics` and `test_date_arithmetics`). -/
theorem date_interval_arithmetic_legality_witness :
    (resolve .add dateLit (intervalLit 3 .w) =
       .ok { dtype := .date, node := .dateAdd
             scalar := dateLit.scalar && (intervalLit 3 .w).scalar
             value := none } ∧
     resolve .sub dateLit (intervalLit 3 .w) =
       .ok { dtype := .date, node := .dateSubtract
             scalar := dateLit.scalar && (intervalLit 3 .w).scalar
             value := none }) ∧
    (resolve .add dateLit (intervalLit 300 .s) = .error .typeError ∧
     resolve .sub dateLit (intervalLit 300 .s) = .error .typeError) :=
  ⟨(date_interval_arithmetic_legality dateLit (intervalLit 3 .w) .w
      (smallestIntType 3) rfl rfl).1 (by simp),
   (date_interval_arithmetic_legality dateLit (intervalLit 300 .s) .s
      (smallestIntType 300) rfl rfl).2 (by simp)⟩

/-- C3 counterexample: the claim says a literal interval may be
up-converted only when its magnitude is exactly divisible by the
cumulative scale factor, yet converting the literal one-day interval to
weeks (1 is not divisible by 7) succeeds, exactly as
`test_cannot_upconvert` asserts for `api.day().to_unit('w')`. -/
theorem upconvert_divisibility_counterexample :
    to_unit (intervalLit 1 .d) .w = .ok (intervalLit 0 .w) ∧
    (1 : Int) % 7 ≠ 0 := by
  exact ⟨by decide, by decide⟩

/-- C3 (amended): `to_unit` towards a coarser fixed-duration unit is
permitted structurally for every operand, literal or column; the check
for exact divisibility is deferred to evaluation (a literal magnitude is
floor-divided by the cumulative scale factor), and the result carries
the target unit. -/
theorem upconvert_structural (n : Int) (t : IntType) (u v : TimeUnit)
    (i j : Nat) (hu : u.fixedIndex = some i) (hv : v.fixedIndex = some j)
    (hij : j < i) :
    to_unit (intervalLit n u) v =
      .ok (intervalLit (Int.fdiv n (cumScale j i)) v) ∧
    to_unit (intervalColumn u t) v = .ok (intervalColumn v t) := by
  have huv : u ≠ v := fixedIndex_ne hu hv (Nat.ne_of_gt hij)
  exact ⟨to_unit_lit_up n hu hv hij,
    by simp [to_unit, intervalColumn, huv, hu, hv, Nat.not_lt_of_gt hij]⟩

/-- C3 witness: five hours up-converted to days give the floor-divided
literal magnitude 0, and an hour column up-converts to a day column. -/
theorem upconvert_structural_witness :
    to_unit (intervalLit 5 .h) .d =
      .ok (intervalLit (Int.fdiv 5 (cumScale 1 2)) .d) ∧
    to_unit (intervalColumn .h .int32) .d = .ok (intervalColumn .d .int32) :=
  upconvert_structural 5 .int32 .h .d 2 1 rfl rfl (by decide)

/-- C4: For fixed-duration units `u` and `v` with `v` finer than `u` and
any literal magnitude `n`, `interval(n, unit=u).to_unit(v)` has unit `v`
and magnitude `n * cumulative_scale(u, v)` (exact integer scaling);
converting back with `to_unit(u)` round-trips to the original value (in
particular whenever the down-converted magnitude is divisible by the
scale, which it always is), and same-unit `to_unit` is the identity. -/
theorem downconvert_scale_roundtrip (n : Int) (u v : TimeUnit) (i j : Nat)
    (hu : u.fixedIndex = some i) (hv : v.fixedIndex = some j)
    (hij : i < j) :
    to_unit (intervalLit n u) v = .ok (intervalLit (n * cumScale i j) v) ∧
    to_unit (intervalLit (n * cumScale i j) v) u = .ok (intervalLit n u) ∧
    to_unit (intervalLit n u) u = .ok (intervalLit n u) := by
  refine ⟨to_unit_lit_down n hu hv hij, ?_, to_unit_lit_same n u⟩
  rw [to_unit_lit_up (n * cumScale i j) hv hu hij]
  rw [Int.mul_fdiv_cancel n (cumScale_ne_zero i j)]

/-- C4 witness: `day(14).to_unit('w')` is not the divisible direction;
instead: `week(2).to_unit('d') = day(14)`, `day(14).to_unit('w')` comes
back to `week(2)` by the round-trip conjunct, and `to_unit('w')` on
`week(2)` itself is the identity. -/
theorem downconvert_scale_roundtrip_witness :
    to_unit (intervalLit 2 .w) .d = .ok (intervalLit (2 * cumScale 0 1) .d) ∧
    to_unit (intervalLit (2 * cumScale 0 1) .d) .w =
      .ok (intervalLit 2 .w) ∧
    to_unit (intervalLit 2 .w) .w = .ok (intervalLit 2 .w) :=
  downconvert_scale_roundtrip 2 .w .d 0 1 rfl rfl (by decide)

/-- C5: For every pair of Interval expressions whose units are both
fixed-duration (chain positions `i` and `j`; possibly different), `a + b`
is an Interval whose unit is the finer of the two operand units (the
larger chain position), with literal magnitudes implicitly
down-converted to the finer unit before summing. -/
theorem interval_add_finer_unit (a b : Expr) (u v : TimeUnit)
    (su sv : IntType) (i j : Nat)
    (ha : a.dtype = .interval u su) (hb : b.dtype = .interval v sv)
    (hu : u.fixedIndex = some i) (hv : v.fixedIndex = some j) :
    resolve .add a b =
      .ok { dtype := .interval (if i ≤ j then v else u) (promoteIntType su sv)
            node := .intervalAdd
            scalar := a.scalar && b.scalar
            value :=
              match a.value, b.value with
              | some x, some y =>
                some (x * cumScale i (max i j) + y * cumScale j (max i j))
              | _, _ => none } := by
  have key : resolve .add a b = combineIntervals a b u v su sv false := by
    simp [resolve, ha, hb]
  rw [key]
  unfold combineIntervals promoteUnit
  by_cases huv : u = v
  · subst huv
    rw [hu] at hv
    have hij : i = j := Option.some.inj hv
    subst hij
    cases hav : a.value <;> cases hbv : b.value <;>
      simp [hu, scaledValue, hav, hbv]
  · simp only [huv, if_neg, hu, hv]
    rcases le_or_lt i j with hij | hij
    · have hmax : max i j = j := Nat.max_eq_right hij
      cases hav : a.value <;> cases hbv : b.value <;>
        simp [hij, hv, scaledValue, hav, hbv, hmax]
    · have hle : ¬ i ≤ j := Nat.not_le_of_lt hij
      have hmax : max i j = i := Nat.max_eq_left (Nat.le_of_lt hij)
      cases hav : a.value <;> cases hbv : b.value <;>
        simp [hle, hu, scaledValue, hav, hbv, hmax]

/-- C5 witness: `second(1) + interval(10, 'h')` resolves to an interval
in seconds whose literal magnitude is the sum after down-converting the
hours operand (matching `test_combine_with_different_kinds`). -/
theorem interval_add_finer_unit_witness :
    resolve .add (intervalLit 1 .s) (intervalLit 10 .h) =
      .ok { dtype := .interval (if 4 ≤ 2 then TimeUnit.h else TimeUnit.s)
                       (promoteIntType (smallestIntType 1) (smallestIntType 10))
            node := .intervalAdd
            scalar := (intervalLit 1 .s).scalar && (intervalLit 10 .h).scalar
            value :=
              match (intervalLit 1 .s).value, (intervalLit 10 .h).value with
              | some x, some y =>
                some (x * cumScale 4 (max 4 2) + y * cumScale 2 (max 4 2))
              | _, _ => none } :=
  interval_add_finer_unit (intervalLit 1 .s) (intervalLit 10 .h) .s .h
    (smallestIntType 1) (smallestIntType 10) 4 2 rfl rfl rfl rfl

/-- C6: For every Interval expression and every scalar integer `k`
(positive or negative), `i * k` is an Interval with the same unit whose
literal magnitude is `i.magnitude * k` under standard signed
multiplication. -/
theorem interval_multiply_sign (e : Expr) (u : TimeUnit) (t : IntType)
    (k : Int) (he : e.dtype = .interval u t) :
    (multiply e k).map (fun r => r.dtype.unitOf) = .ok (some u) ∧
    (multiply e k).map Expr.value = .ok (e.value.map (· * k)) := by
  cases hv : e.value <;>
    simp [multiply, he, hv, DataType.unitOf, Except.map]

/-- C6 witness: `day(2) * -2` keeps unit `d` and has magnitude `-4`. -/
theorem interval_multiply_sign_witness :
    ((multiply (intervalLit 2 .d) (-2)).map (fun r => r.dtype.unitOf) =
       .ok (some .d) ∧
     (multiply (intervalLit 2 .d) (-2)).map Expr.value =
       .ok ((intervalLit 2 .d).value.map (· * (-2)))) ∧
    (intervalLit 2 .d).value.map (· * (-2)) = some (-4) :=
  ⟨interval_multiply_sign (intervalLit 2 .d) .d (smallestIntType 2)
     (-2) rfl, by decide⟩

/-- C7: For every Interval expression `i` and every instant expression
`x` of domain Timestamp, Date, or Time, `i + x` and `x + i` resolve to
the very same result, and a successful result carries the instant's own
type and the corresponding `*Add` node kind (TimestampAdd, DateAdd, or
TimeAdd) — there is no distinct reverse-add node kind. -/
theorem instant_interval_add_commutes (i x : Expr) (u : TimeUnit)
    (t : IntType) (hi : i.dtype = .interval u t)
    (hx : x.dtype = .timestamp ∨ x.dtype = .date ∨ x.dtype = .time) :
    resolve .add i x = resolve .add x i ∧
    (resolve .add x i).map (fun e => (e.dtype, e.node)) =
      (resolve .add x i).map (fun _ => (x.dtype, addKind x.dtype)) := by
  rcases hx with hx | hx | hx
  · simp [resolve, hi, hx, addKind, Except.map, Bool.and_comm]
  · by_cases hdc : dateCompatible u <;>
      simp [resolve, hi, hx, hdc, addKind, Except.map, Bool.and_comm]
  · simp [resolve, hi, hx, addKind, Except.map, Bool.and_comm]

/-- C7 witness: adding `timedelta(seconds=1)` to a timestamp column in
either order yields the same TimestampAdd node (mirrors
`test_interval_timestamp_expr`). -/
theorem instant_interval_add_commutes_witness :
    resolve .add (intervalLit 1 .s) timestampColumn =
      resolve .add timestampColumn (intervalLit 1 .s) ∧
    (resolve .add timestampColumn (intervalLit 1 .s)).map
        (fun e => (e.dtype, e.node)) =
      (resolve .add timestampColumn (intervalLit 1 .s)).map
        (fun _ => (timestampColumn.dtype, addKind timestampColumn.dtype)) :=
  instant_interval_add_commutes (intervalLit 1 .s) timestampColumn .s
    (smallestIntType 1) rfl (Or.inl rfl)

/-- C8: The `interval` constructor raises `ValueError` on zero magnitude
sources (`interval()`) and on more than one named magnitude
(`interval(days=1, hours=2)`); with exactly one named magnitude it
succeeds and equals the corresponding convenience constructor, e.g.
`interval(weeks=2)` equals `week(2)`. -/
theorem interval_constructor_arity (uu u : TimeUnit) (n : Int) :
    interval .noValue uu [] = .error .valueError ∧
    interval .noValue uu [(.d, 1), (.h, 2)] = .error .valueError ∧
    interval .noValue uu [(u, n)] = .ok (intervalLit n u) ∧
    interval .noValue uu [(.w, 2)] = .ok (week 2) :=
  ⟨rfl, rfl, rfl, rfl⟩

/-- C9: `to_unit` between an Interval carrying a calendar unit (year or
month) and a fixed-duration target — in either direction — fails with
`IncompatibleUnits`. -/
theorem cross_boundary_to_unit (e1 e2 : Expr) (c f : TimeUnit)
    (t1 t2 : IntType) (hc : c.isCalendar = true) (hf : f.isCalendar = false)
    (h1 : e1.dtype = .interval c t1) (h2 : e2.dtype = .interval f t2) :
    to_unit e1 f = .error .incompatibleUnits ∧
    to_unit e2 c = .error .incompatibleUnits := by
  have hcf : c ≠ f := by
    intro h
    rw [h, hf] at hc
    cases hc
  have hcn : c.fixedIndex = none := by
    cases c <;> simp_all [TimeUnit.isCalendar, TimeUnit.fixedIndex]
  obtain ⟨jf, hjf⟩ : ∃ jf, f.fixedIndex = some jf := by
    cases f <;> simp_all [TimeUnit.isCalendar, TimeUnit.fixedIndex]
  constructor
  · simp [to_unit, h1, hcf, hcn, hjf]
  · simp [to_unit, h2, Ne.symm hcf, hcn, hjf]

/-- C9 witness: `interval(months=2).to_unit('d')` raises
`IncompatibleUnits`, as does wrapping a day interval back into months. -/
theorem cross_boundary_to_unit_witness :
    to_unit (intervalLit 2 .M) .d = .error .incompatibleUnits ∧
    to_unit (intervalLit 5 .d) .M = .error .incompatibleUnits :=
  cross_boundary_to_unit (intervalLit 2 .M) (intervalLit 5 .d) .M .d
    (smallestIntType 2) (smallestIntType 5) rfl rfl rfl rfl

/-- C10: The `interval` constructor also accepts a single positional
value: a bare integer (`interval(3600)`, using the caller-side default
unit) and a duration value (`interval(datetime.timedelta(days=3))`)
each succeed and produce an Interval scalar expression. -/
theorem interval_positional_value :
    (interval (.int 3600) .s []).map Expr.isIntervalScalar = .ok true ∧
    (interval (.timedelta 3 0 0) .s []).map Expr.isIntervalScalar =
      .ok true := by
  exact ⟨rfl, rfl⟩

end Ibis
